import Mathlib

/-!
Shallow embedding of the session-bridging / proxy core of the BFF
(`src/middleware/circuitBreaker.ts`, `src/config/redis.ts`,
`src/services/quentryService.ts`, `src/middleware/quentryProxy.ts` and the
Quentry route handlers).  Timestamps (`Date.now()` values) and durations are
modelled as `Int` milliseconds; failure counters as `Nat` (the code keeps them
at `Math.max(0, _)`); JSON values as a small inductive `Json`; JS exceptions
as `Except.error`.
-/

/-! ## A small JSON model (response bodies, stored session records) -/

/-- JSON values as they flow through axios responses and the session store.
`undefined` is modelled by `Option.none` at use sites, not as a `Json` value. -/
inductive Json where
  | null
  | bool (b : Bool)
  | num (n : Int)
  | str (s : String)
  | arr (elems : List Json)
  | obj (fields : List (String × Json))

/-- First-match lookup in an association list (JS property access on an
object's field list, and `Map.get`). -/
def alistLookup {α : Type} : List (String × α) → String → Option α
  | [], _ => none
  | (k', v) :: rest, k => if k' = k then some v else alistLookup rest k

/-- JS property access `j[k]`: `none` models `undefined` (also for access on a
non-object, matching the optional-chaining uses in the source). -/
def getField (j : Json) (k : String) : Option Json :=
  match j with
  | .obj fields => alistLookup fields k
  | _ => none

/-- JS truthiness of a JSON value. -/
def jsTruthy : Json → Bool
  | .null => false
  | .bool b => b
  | .num n => decide (n ≠ 0)
  | .str s => decide (s ≠ "")
  | .arr _ => true
  | .obj _ => true

/-- Truthiness of `j?.k` (false both when the field is absent and when it is
present but falsy). -/
def truthyField (j : Json) (k : String) : Bool :=
  match getField j k with
  | some v => jsTruthy v
  | none => false

/-! ## Association-list operations (JS `Map` and object-spread updates) -/

/-- Replace the first binding of `k` (or append one): JS `Map.set` /
last-key-wins object update. -/
def alistSet {α : Type} : List (String × α) → String → α → List (String × α)
  | [], k, v => [(k, v)]
  | (k', v') :: rest, k, v =>
      if k' = k then (k, v) :: rest else (k', v') :: alistSet rest k v

/-- Remove every binding of `k`: JS `Map.delete` (keys are unique in a `Map`,
so removing all occurrences is the faithful reading on this list model). -/
def alistErase {α : Type} (l : List (String × α)) (k : String) : List (String × α) :=
  l.filter fun kv => decide (kv.1 ≠ k)

/-- JS `{...j, k: v}` for the object case; a primitive spreads to no
enumerable entries (strings excepted, which never reach this code path:
the caller has already checked a truthy `token` field, so `j` is an object). -/
def jsSpreadSet (j : Json) (k : String) (v : Json) : Json :=
  match j with
  | .obj fields => .obj (alistSet fields k v)
  | _ => .obj [(k, v)]

/-! ## Circuit breaker (`src/middleware/circuitBreaker.ts`) -/

inductive CBPhase where
  | closed
  | opened
  | halfOpen
deriving DecidableEq, Repr

/-- `CircuitBreakerState` from the source (`failures`, `nextAttempt`,
`state`). -/
structure CBState where
  failures : Nat
  nextAttempt : Int
  phase : CBPhase
deriving DecidableEq, Repr

/-- `CircuitBreakerOptions` (the `timeout` field is carried but never used by
the breaker itself, as in the source). -/
structure CBOptions where
  threshold : Nat
  timeout : Int
  resetTimeout : Int
deriving DecidableEq, Repr

/-- The state installed on first use of a breaker name. -/
def CBState.initial : CBState := { failures := 0, nextAttempt := 0, phase := .closed }

/-- `SimpleCircuitBreaker.isOpen()`: returns the answer and the (possibly
mutated) state — when Open and `now > nextAttempt` it half-opens as a side
effect of the check and answers `false`. -/
def SimpleCircuitBreaker.isOpen (s : CBState) (now : Int) : Bool × CBState :=
  if s.phase = .opened ∧ s.nextAttempt < now then
    (false, { s with phase := .halfOpen })
  else
    (decide (s.phase = .opened), s)

/-- `SimpleCircuitBreaker.record(error)`: `isError = true` models a non-null
`error` argument. -/
def SimpleCircuitBreaker.record (o : CBOptions) (s : CBState) (isError : Bool)
    (now : Int) : CBState :=
  if isError then
    let newFailures := s.failures + 1
    if o.threshold ≤ newFailures then
      { phase := .opened, failures := newFailures, nextAttempt := now + o.resetTimeout }
    else
      { s with failures := newFailures }
  else if s.phase = .halfOpen then
    { s with phase := .closed, failures := 0 }
  else if s.phase = .closed then
    -- Math.max(0, state.failures - 1), i.e. truncated subtraction on Nat
    { s with failures := s.failures - 1 }
  else
    s

/-- A run of consecutive recorded failures at the given instants. -/
def recordFailures (o : CBOptions) (s : CBState) (ts : List Int) : CBState :=
  ts.foldl (fun st t => SimpleCircuitBreaker.record o st true t) s

/-- One pass of `circuitBreakerMiddleware` for a request arriving at `now`.
The middleware wraps `res.send` so that the status eventually sent is recorded
(status ≥ 500 counts as failure), then checks `isOpen()`.  If open it rejects
with `res.status(503).json(...)` — which goes through the wrapped `send`, so a
`HTTP 503` failure is recorded.  Otherwise the request passes through and the
downstream response is recorded via the same wrapper (`passIsError` tells
whether that response had status ≥ 500).  Returns (rejected?, new state). -/
def middlewareStep (o : CBOptions) (s : CBState) (now : Int) (passIsError : Bool) :
    Bool × CBState :=
  match SimpleCircuitBreaker.isOpen s now with
  | (true, s1) => (true, SimpleCircuitBreaker.record o s1 true now)
  | (false, s1) => (false, SimpleCircuitBreaker.record o s1 passIsError now)

/-- Iterated middleware passes that all get rejected (the pass-through
error flag is irrelevant on the reject branch; fixed to `false`). -/
def rejectedRun (o : CBOptions) (s : CBState) : List Int → CBState
  | [] => s
  | t :: ts => rejectedRun o (middlewareStep o s t false).2 ts

/-- Every arrival in the list comes no later than the `nextAttempt` of the
state current when it arrives. -/
def arrivalsWithinWindow (o : CBOptions) (s : CBState) : List Int → Bool
  | [] => true
  | t :: ts =>
      decide (t ≤ s.nextAttempt) && arrivalsWithinWindow o (middlewareStep o s t false).2 ts

/-! ## Session store (`src/config/redis.ts`) -/

/-- One entry of the in-memory fallback store: value plus optional absolute
expiry instant (epoch millis); `none` when set without a TTL. -/
structure MemItem (α : Type) where
  value : α
  expiry : Option Int
deriving DecidableEq, Repr

/-- The `memoryStore` `Map`, modelled as an association list.  `α` is the
stored value type: `String` for the store itself; theorems about handlers
that `JSON.parse` the value instantiate `α := Json` (treating
`JSON.parse ∘ JSON.stringify` as the identity). -/
def MemStore (α : Type) := List (String × MemItem α)

/-- `createMemoryStore().get`: purges the entry and answers `null` when an
expiry is set and strictly in the past; returns the value (and the unchanged
store) otherwise. -/
def memGet {α : Type} (now : Int) (store : MemStore α) (key : String) :
    Option α × MemStore α :=
  match alistLookup store key with
  | none => (none, store)
  | some item =>
      match item.expiry with
      | some e => if e < now then (none, alistErase store key) else (some item.value, store)
      | none => (some item.value, store)

/-- `createMemoryStore().set`: absolute expiry is `now + ttl*1000` when a TTL
is given. -/
def memSet {α : Type} (now : Int) (store : MemStore α) (key : String) (value : α)
    (ttl : Option Int) : MemStore α :=
  alistSet store key { value := value, expiry := ttl.map (fun t => now + t * 1000) }

/-- `createMemoryStore().del`. -/
def memDel {α : Type} (store : MemStore α) (key : String) : MemStore α :=
  alistErase store key

/-- `createMemoryStore().exists`: `memoryStore.has(key)` — no expiry check. -/
def memExists {α : Type} (store : MemStore α) (key : String) : Bool :=
  (alistLookup store key).isSome

/-- The networked (`initializeRedis`) `get` wrapper: the raw client call's
outcome is passed in; a thrown error is swallowed and reported as `null`. -/
def redisGet (raw : Except String (Option String)) : Except String (Option String) :=
  match raw with
  | .ok v => .ok v
  | .error _ => .ok none

/-- The networked `set` wrapper: a thrown error is logged and re-thrown. -/
def redisSet (raw : Except String Unit) : Except String Unit :=
  match raw with
  | .ok _ => .ok ()
  | .error e => .error e

/-- The networked `del` wrapper: a thrown error is swallowed (no-op). -/
def redisDel (raw : Except String Unit) : Except String Unit :=
  match raw with
  | .ok _ => .ok ()
  | .error _ => .ok ()

/-! ## Upstream authenticator (`src/services/quentryService.ts`) and the
Quentry route handlers / proxy auth check -/

/-- `quentryConfig.sessionTtl` (seconds). -/
def quentrySessionTtl : Int := 3600

/-- The Redis key for a subject's Quentry session
(`REDIS_KEY_PREFIX = 'quentry_session:'`). -/
def quentryKey (userId : String) : String := "quentry_session:" ++ userId

/-- An upstream HTTP response: status code plus parsed JSON body.  axios
resolves only for 2xx statuses and throws otherwise. -/
structure HttpResponse where
  status : Nat
  body : Json

/-- `response.data?.data || response.data`: try the nested `data` field first
and fall back to the whole body when the field is absent *or falsy*. -/
def extractPayload (body : Json) : Json :=
  match getField body "data" with
  | some d => if jsTruthy d then d else body
  | none => body

/-- The `QuentrySession` interface; fields other than `token` and `expires`
may be `undefined` in the upstream payload, hence `Option Json`. -/
structure QuentrySession where
  token : Json
  webAPIURL : Option Json
  userName : Option Json
  fullName : Option Json
  userEmail : Option Json
  userSystemId : Option Json
  region : Option Json
  portalDefaultUrl : Option Json
  userSpecialities : Option Json
  userSystemRoleTypes : Option Json
  urlsLookup : Option Json
  expires : Int

/-- Construction of the `QuentrySession` from the extracted payload. -/
def mkQuentrySession (rd tok : Json) (now : Int) : QuentrySession :=
  { token := tok
    webAPIURL := getField rd "webAPIURL"
    userName := getField rd "userName"
    fullName := getField rd "fullName"
    userEmail := getField rd "userEmail"
    userSystemId := getField rd "userSystemId"
    region := getField rd "region"
    portalDefaultUrl := getField rd "portalDefaultUrl"
    userSpecialities := getField rd "userSpecialities"
    userSystemRoleTypes := getField rd "userSystemRoleTypes"
    urlsLookup := getField rd "urlsLookup"
    expires := now + quentrySessionTtl * 1000 }

/-- `authenticateWithQuentry(username, password)` after the upstream call came
back with response `r`.  A missing/falsy token throws
(`Invalid response from Quentry auth service - no token found`), which the
function's own catch rewraps; a non-2xx status makes axios throw, rewrapped the
same way.  `Except.error` models the thrown `Error`'s message. -/
def authenticateWithQuentry (now : Int) (r : HttpResponse) :
    Except String QuentrySession :=
  if 200 ≤ r.status ∧ r.status < 300 then
    let responseData := extractPayload r.body
    match getField responseData "token" with
    | some tok =>
        if jsTruthy tok then
          .ok (mkQuentrySession responseData tok now)
        else
          .error "Quentry authentication failed: Invalid response from Quentry auth service - no token found"
    | none =>
        .error "Quentry authentication failed: Invalid response from Quentry auth service - no token found"
  else
    .error ("Quentry authentication failed: Request failed with status code " ++ toString r.status)

/-- A response sent back to the browser by a route handler. -/
structure HttpReply where
  status : Nat
  body : Json

/-- A write issued to the session store (`redis.set(key, JSON.stringify(v),
ttlSeconds)`); the value is kept as `Json` rather than serialized text. -/
structure StoreWrite where
  key : String
  value : Json
  ttl : Int

/-- Builds a JSON object dropping `undefined` fields (as `res.json` does). -/
def objOfOpt (l : List (String × Option Json)) : Json :=
  .obj (l.filterMap fun kv => kv.2.map fun v => (kv.1, v))

/-- The 200 body of the Quentry `login` handler. -/
def loginSuccessBody (rd : Json) : Json :=
  objOfOpt
    [("success", some (.bool true)),
     ("user", some (objOfOpt
        [("username", getField rd "userName"),
         ("fullName", getField rd "fullName"),
         ("email", getField rd "userEmail"),
         ("id", getField rd "userSystemId")])),
     ("urlsLookup", getField rd "urlsLookup")]

/-- The Quentry `login` route handler, from the axios call to the upstream
auth endpoint onward (the Keycloak-session and body checks have passed and the
subject id is `userId`).  Returns the reply sent and the store write, if any.
On a 2xx response with no truthy token: fixed 401.  On a non-2xx response,
axios throws and the catch replies with `error.response.status || 500` and
`error.response.data.message || error.message`. -/
def login (now : Int) (userId : String) (r : HttpResponse) :
    HttpReply × Option StoreWrite :=
  if 200 ≤ r.status ∧ r.status < 300 then
    let responseData := extractPayload r.body
    if truthyField responseData "token" then
      let sessionRecord := jsSpreadSet responseData "expires" (.num (now + 3600 * 1000))
      ({ status := 200, body := loginSuccessBody responseData },
       some { key := quentryKey userId, value := sessionRecord, ttl := 3600 })
    else
      ({ status := 401,
         body := .obj [("error", .str "Invalid credentials - no token returned")] },
       none)
  else
    let msg : Json :=
      match getField r.body "message" with
      | some m =>
          if jsTruthy m then m
          else .str ("Request failed with status code " ++ toString r.status)
      | none => .str ("Request failed with status code " ++ toString r.status)
    ({ status := if r.status = 0 then 500 else r.status,
       body := .obj [("error", .str "Authentication failed"), ("message", msg)] },
     none)

/-- JS `v <= now` where `v` is the (possibly absent) `expires` property:
`undefined` compares false (NaN); `null` coerces to 0; booleans to 0/1.
Persisted records always carry a numeric `expires`, so the other shapes
(numeric strings) are modelled as the non-expired answer. -/
def jsLeNow (v : Option Json) (now : Int) : Bool :=
  match v with
  | some (.num e) => decide (e ≤ now)
  | some .null => decide ((0 : Int) ≤ now)
  | some (.bool b) => decide ((if b then (1 : Int) else 0) ≤ now)
  | _ => false

/-- Outcome of the shared session-read logic of `ensureQuentryAuth`
(`src/middleware/quentryProxy.ts`) and the `status` handler. -/
inductive QuentryAuthResult where
  | absent
  | expired
  | active (session : Json)

/-- The `getUpstream`-style read shared by `ensureQuentryAuth` and the
`status` handler: read the record; if present but `expires <= Date.now()`,
delete it and report expired; otherwise report the live session.  Returns the
outcome and the store after the read. -/
def getUpstream (now : Int) (store : MemStore Json) (userId : String) :
    QuentryAuthResult × MemStore Json :=
  match memGet now store (quentryKey userId) with
  | (none, store1) => (.absent, store1)
  | (some sessionJson, store1) =>
      if jsLeNow (getField sessionJson "expires") now then
        (.expired, memDel store1 (quentryKey userId))
      else
        (.active sessionJson, store1)

/-! ## Association-list lemmas -/

theorem alistLookup_set_self {α : Type} (l : List (String × α)) (k : String) (v : α) :
    alistLookup (alistSet l k v) k = some v := by
  induction l with
  | nil => simp [alistSet, alistLookup]
  | cons kv rest ih =>
    obtain ⟨k', v'⟩ := kv
    by_cases h : k' = k
    · simp [alistSet, alistLookup, h]
    · simp [alistSet, alistLookup, h, ih]

theorem alistLookup_set_ne {α : Type} (l : List (String × α)) (k k' : String) (v : α)
    (h : k' ≠ k) : alistLookup (alistSet l k v) k' = alistLookup l k' := by
  induction l with
  | nil => simp [alistSet, alistLookup, Ne.symm h]
  | cons kv rest ih =>
    obtain ⟨k0, v0⟩ := kv
    by_cases h0 : k0 = k
    · subst h0
      simp [alistSet, alistLookup, Ne.symm h]
    · simp [alistSet, alistLookup, h0, ih]

theorem alistLookup_erase_self {α : Type} (l : List (String × α)) (k : String) :
    alistLookup (alistErase l k) k = none := by
  induction l with
  | nil => rfl
  | cons kv rest ih =>
    obtain ⟨k', v⟩ := kv
    by_cases h : k' = k
    · simpa [alistErase, List.filter_cons, h] using ih
    · simpa [alistErase, List.filter_cons, h, alistLookup] using ih

/-! ## Circuit-breaker lemmas -/

/-- While strictly below the threshold, recorded failures only increment the
counter of a Closed breaker. -/
theorem record_closed_run (o : CBOptions) (ts : List Int) :
    ∀ s : CBState, s.phase = .closed → s.failures + ts.length < o.threshold →
      recordFailures o s ts =
        { failures := s.failures + ts.length, nextAttempt := s.nextAttempt,
          phase := .closed } := by
  induction ts with
  | nil =>
    intro s hs _
    obtain ⟨f, n, p⟩ := s
    simp_all [recordFailures]
  | cons t ts ih =>
    intro s hs hlt
    have hth : ¬ o.threshold ≤ s.failures + 1 := by
      simp only [List.length_cons] at hlt; omega
    have hstep : SimpleCircuitBreaker.record o s true t = { s with failures := s.failures + 1 } := by
      simp [SimpleCircuitBreaker.record, hth]
    have : recordFailures o s (t :: ts) = recordFailures o { s with failures := s.failures + 1 } ts := by
      simp [recordFailures, hstep]
    rw [this, ih _ (by simpa using hs) (by simp only [List.length_cons] at hlt; simpa using by omega)]
    simp only [List.length_cons]
    congr 1
    omega

/-! ## Claim C7 — Closed-state recording -/

/-- C7: in the Closed state, recording a failure increments the failure
counter by one, and the breaker transitions to Open exactly when the new
counter reaches the threshold (otherwise it stays Closed); recording a
success keeps it Closed and decrements the counter by one, never below
zero (`Math.max(0, failures - 1)`). -/
theorem closedState_record (o : CBOptions) (s : CBState) (tf tsucc : Int)
    (h : s.phase = .closed) :
    (SimpleCircuitBreaker.record o s true tf).failures = s.failures + 1 ∧
    ((SimpleCircuitBreaker.record o s true tf).phase = .opened ↔
      o.threshold ≤ s.failures + 1) ∧
    (s.failures + 1 < o.threshold →
      (SimpleCircuitBreaker.record o s true tf).phase = .closed) ∧
    (SimpleCircuitBreaker.record o s false tsucc).phase = .closed ∧
    ((SimpleCircuitBreaker.record o s false tsucc).failures : Int) =
      max ((s.failures : Int) - 1) 0 := by
  have hfail : SimpleCircuitBreaker.record o s true tf =
      if o.threshold ≤ s.failures + 1 then
        { failures := s.failures + 1, nextAttempt := tf + o.resetTimeout, phase := .opened }
      else { s with failures := s.failures + 1 } := by
    simp [SimpleCircuitBreaker.record]
  have hsucc : SimpleCircuitBreaker.record o s false tsucc =
      { s with failures := s.failures - 1 } := by
    simp [SimpleCircuitBreaker.record, h]
  refine ⟨?_, ?_, ?_, ?_, ?_⟩
  · rw [hfail]; split <;> rfl
  · by_cases hth : o.threshold ≤ s.failures + 1
    · simp [hfail, hth]
    · simp [hfail, hth, h]
  · intro hlt
    have hth : ¬ o.threshold ≤ s.failures + 1 := by omega
    simp [hfail, hth, h]
  · simp [hsucc, h]
  · simp only [hsucc]
    rcases Nat.eq_zero_or_pos s.failures with h0 | h0
    · simp [h0]
    · rw [max_eq_left (by omega)]
      omega

/-- C7 witness at a concrete Closed state below threshold. -/
theorem closedState_record_witness :
    ((⟨1, 0, .closed⟩ : CBState).phase = .closed) ∧ (1 + 1 < 3) ∧
    (SimpleCircuitBreaker.record ⟨3, 0, 100⟩ ⟨1, 0, .closed⟩ true 10).failures = 2 ∧
    (SimpleCircuitBreaker.record ⟨3, 0, 100⟩ ⟨1, 0, .closed⟩ true 10).phase = .closed :=
  ⟨rfl, by decide,
   (closedState_record ⟨3, 0, 100⟩ ⟨1, 0, .closed⟩ 10 10 rfl).1,
   (closedState_record ⟨3, 0, 100⟩ ⟨1, 0, .closed⟩ 10 10 rfl).2.2.1 (by decide)⟩

/-! ## Claim C2 — HalfOpen-state recording -/

/-- C2 counterexample: in a HalfOpen state with counter 0 and threshold 2,
recording a failure leaves the breaker HalfOpen with counter 1 — not Open
with the counter unchanged, as the claim states for every HalfOpen state. -/
theorem halfOpen_failure_counterexample :
    (SimpleCircuitBreaker.record ⟨2, 0, 100⟩ ⟨0, 0, .halfOpen⟩ true 50).phase = .halfOpen ∧
    (SimpleCircuitBreaker.record ⟨2, 0, 100⟩ ⟨0, 0, .halfOpen⟩ true 50).failures = 1 ∧
    ¬((SimpleCircuitBreaker.record ⟨2, 0, 100⟩ ⟨0, 0, .halfOpen⟩ true 50).phase = .opened ∧
      (SimpleCircuitBreaker.record ⟨2, 0, 100⟩ ⟨0, 0, .halfOpen⟩ true 50).failures = 0) := by
  decide

/-- C2 (amended): in the HalfOpen state, recording a failure increments the
counter by one and transitions to Open (with `nextAttempt = now +
open-duration`) exactly when the incremented counter reaches the threshold;
below the threshold the breaker stays HalfOpen with `nextAttempt` unchanged.
Recording a success transitions to Closed with the counter reset to 0. -/
theorem halfOpen_record_amended (o : CBOptions) (s : CBState) (now t : Int)
    (h : s.phase = .halfOpen) :
    (SimpleCircuitBreaker.record o s true now).failures = s.failures + 1 ∧
    (o.threshold ≤ s.failures + 1 →
      (SimpleCircuitBreaker.record o s true now).phase = .opened ∧
      (SimpleCircuitBreaker.record o s true now).nextAttempt = now + o.resetTimeout) ∧
    (s.failures + 1 < o.threshold →
      (SimpleCircuitBreaker.record o s true now).phase = .halfOpen ∧
      (SimpleCircuitBreaker.record o s true now).nextAttempt = s.nextAttempt) ∧
    (SimpleCircuitBreaker.record o s false t).phase = .closed ∧
    (SimpleCircuitBreaker.record o s false t).failures = 0 := by
  have hfail : SimpleCircuitBreaker.record o s true now =
      if o.threshold ≤ s.failures + 1 then
        { failures := s.failures + 1, nextAttempt := now + o.resetTimeout, phase := .opened }
      else { s with failures := s.failures + 1 } := by
    simp [SimpleCircuitBreaker.record]
  have hsucc : SimpleCircuitBreaker.record o s false t =
      { s with phase := .closed, failures := 0 } := by
    simp [SimpleCircuitBreaker.record, h]
  refine ⟨?_, ?_, ?_, ?_, ?_⟩
  · rw [hfail]; split <;> rfl
  · intro hth
    simp [hfail, hth]
  · intro hlt
    have hth : ¬ o.threshold ≤ s.failures + 1 := by omega
    simp [hfail, hth, h]
  · simp [hsucc]
  · simp [hsucc]

/-- C2 (amended) witness at a concrete HalfOpen state above threshold. -/
theorem halfOpen_record_amended_witness :
    ((⟨2, 7, .halfOpen⟩ : CBState).phase = .halfOpen) ∧
    (SimpleCircuitBreaker.record ⟨2, 0, 100⟩ ⟨2, 7, .halfOpen⟩ true 50).phase = .opened ∧
    (SimpleCircuitBreaker.record ⟨2, 0, 100⟩ ⟨2, 7, .halfOpen⟩ true 50).nextAttempt = 150 ∧
    (SimpleCircuitBreaker.record ⟨2, 0, 100⟩ ⟨2, 7, .halfOpen⟩ false 60).phase = .closed :=
  ⟨rfl,
   ((halfOpen_record_amended ⟨2, 0, 100⟩ ⟨2, 7, .halfOpen⟩ 50 60 rfl).2.1 (by decide)).1,
   ((halfOpen_record_amended ⟨2, 0, 100⟩ ⟨2, 7, .halfOpen⟩ 50 60 rfl).2.1 (by decide)).2,
   (halfOpen_record_amended ⟨2, 0, 100⟩ ⟨2, 7, .halfOpen⟩ 50 60 rfl).2.2.2.1⟩

/-! ## Claim C1 — Circuit-breaker lifecycle -/

/-- C1: starting Closed with counter 0, the breaker is not open before the
threshold-th consecutive failure; the threshold-th failure makes `isOpen()`
true (checked while the current time has not yet passed `nextAttempt`); once
the current time passes `nextAttempt`, the next `isOpen()` call itself
half-opens the breaker as a side effect and returns false; a subsequently
recorded success transitions to Closed with the counter reset to 0. -/
theorem circuitBreaker_lifecycle (o : CBOptions) (ts : List Int)
    (tOpen tCheck tHalf tSucc : Int)
    (hlen : ts.length + 1 = o.threshold)
    (hCheck : tCheck ≤ tOpen + o.resetTimeout)
    (hHalf : tOpen + o.resetTimeout < tHalf) :
    (∀ now : Int,
      (SimpleCircuitBreaker.isOpen (recordFailures o CBState.initial ts) now).1 = false) ∧
    (SimpleCircuitBreaker.isOpen
      (SimpleCircuitBreaker.record o (recordFailures o CBState.initial ts) true tOpen)
      tCheck).1 = true ∧
    (SimpleCircuitBreaker.isOpen
      (SimpleCircuitBreaker.record o (recordFailures o CBState.initial ts) true tOpen)
      tHalf).1 = false ∧
    (SimpleCircuitBreaker.isOpen
      (SimpleCircuitBreaker.record o (recordFailures o CBState.initial ts) true tOpen)
      tHalf).2.phase = .halfOpen ∧
    (SimpleCircuitBreaker.record o
      (SimpleCircuitBreaker.isOpen
        (SimpleCircuitBreaker.record o (recordFailures o CBState.initial ts) true tOpen)
        tHalf).2 false tSucc).phase = .closed ∧
    (SimpleCircuitBreaker.record o
      (SimpleCircuitBreaker.isOpen
        (SimpleCircuitBreaker.record o (recordFailures o CBState.initial ts) true tOpen)
        tHalf).2 false tSucc).failures = 0 := by
  have hclosed : recordFailures o CBState.initial ts =
      { failures := ts.length, nextAttempt := 0, phase := .closed } := by
    have := record_closed_run o ts CBState.initial rfl (by simp [CBState.initial]; omega)
    simpa [CBState.initial] using this
  have hopen : SimpleCircuitBreaker.record o (recordFailures o CBState.initial ts) true tOpen =
      { failures := ts.length + 1, nextAttempt := tOpen + o.resetTimeout, phase := .opened } := by
    rw [hclosed]
    simp [SimpleCircuitBreaker.record]
    omega
  have hhalf : SimpleCircuitBreaker.isOpen
      ({ failures := ts.length + 1, nextAttempt := tOpen + o.resetTimeout,
         phase := .opened } : CBState) tHalf =
      (false, { failures := ts.length + 1, nextAttempt := tOpen + o.resetTimeout,
                phase := .halfOpen }) := by
    simp [SimpleCircuitBreaker.isOpen]
    omega
  refine ⟨?_, ?_, ?_, ?_, ?_, ?_⟩
  · intro now
    rw [hclosed]
    simp [SimpleCircuitBreaker.isOpen]
  · rw [hopen]
    have hc : ¬(tOpen + o.resetTimeout < tCheck) := by omega
    simp [SimpleCircuitBreaker.isOpen, hc]
  · rw [hopen, hhalf]
  · rw [hopen, hhalf]
  · rw [hopen, hhalf]
    simp [SimpleCircuitBreaker.record]
  · rw [hopen, hhalf]
    simp [SimpleCircuitBreaker.record]

/-- C1 witness: threshold 2, one prior failure, then the opening failure,
an in-window check, a post-window check and a success. -/
theorem circuitBreaker_lifecycle_witness :
    (([5] : List Int).length + 1 = (⟨2, 0, 100⟩ : CBOptions).threshold ∧
     (50 : Int) ≤ 10 + (⟨2, 0, 100⟩ : CBOptions).resetTimeout ∧
     (10 : Int) + (⟨2, 0, 100⟩ : CBOptions).resetTimeout < 200) ∧
    (SimpleCircuitBreaker.isOpen
      (SimpleCircuitBreaker.record ⟨2, 0, 100⟩
        (recordFailures ⟨2, 0, 100⟩ CBState.initial [5]) true 10) 50).1 = true ∧
    (SimpleCircuitBreaker.isOpen
      (SimpleCircuitBreaker.record ⟨2, 0, 100⟩
        (recordFailures ⟨2, 0, 100⟩ CBState.initial [5]) true 10) 200).1 = false ∧
    (SimpleCircuitBreaker.record ⟨2, 0, 100⟩
      (SimpleCircuitBreaker.isOpen
        (SimpleCircuitBreaker.record ⟨2, 0, 100⟩
          (recordFailures ⟨2, 0, 100⟩ CBState.initial [5]) true 10) 200).2
      false 300).failures = 0 :=
  ⟨⟨by decide, by decide, by decide⟩,
   (circuitBreaker_lifecycle ⟨2, 0, 100⟩ [5] 10 50 200 300
     (by decide) (by decide) (by decide)).2.1,
   (circuitBreaker_lifecycle ⟨2, 0, 100⟩ [5] 10 50 200 300
     (by decide) (by decide) (by decide)).2.2.1,
   (circuitBreaker_lifecycle ⟨2, 0, 100⟩ [5] 10 50 200 300
     (by decide) (by decide) (by decide)).2.2.2.2.2⟩

/-! ## Claim C8 — middleware rejection feedback loop -/

/-- A rejected middleware pass on an Open breaker whose counter has reached
the threshold: the 503 is recorded through the wrapped `send`, incrementing
the counter and pushing `nextAttempt` to `now + resetTimeout`. -/
theorem middleware_reject_step (o : CBOptions) (s : CBState) (now : Int)
    (hopen : s.phase = .opened) (hinv : o.threshold ≤ s.failures)
    (hnow : now ≤ s.nextAttempt) :
    middlewareStep o s now false =
      (true, { failures := s.failures + 1, nextAttempt := now + o.resetTimeout,
               phase := .opened }) := by
  have hc : ¬(s.nextAttempt < now) := by omega
  have hIsOpen : SimpleCircuitBreaker.isOpen s now = (true, s) := by
    simp [SimpleCircuitBreaker.isOpen, hc, hopen]
  have hth : o.threshold ≤ s.failures + 1 := by omega
  simp [middlewareStep, hIsOpen, SimpleCircuitBreaker.record, hth]

/-- While every arrival stays within the open window, rejected passes keep
the breaker Open with the counter at or above threshold. -/
theorem rejectedRun_stays_open (o : CBOptions) (ts : List Int) :
    ∀ s : CBState, s.phase = .opened → o.threshold ≤ s.failures →
      arrivalsWithinWindow o s ts = true →
      (rejectedRun o s ts).phase = .opened ∧
      o.threshold ≤ (rejectedRun o s ts).failures := by
  induction ts with
  | nil => intro s h1 h2 _; exact ⟨h1, h2⟩
  | cons t ts ih =>
    intro s h1 h2 hw
    rw [arrivalsWithinWindow, Bool.and_eq_true, decide_eq_true_iff] at hw
    obtain ⟨hle, hw'⟩ := hw
    have hstep := middleware_reject_step o s t h1 h2 hle
    rw [hstep] at hw'
    rw [rejectedRun, hstep]
    exact ih _ rfl (by simp; omega) hw'

/-- Prefixes of a within-window arrival sequence are within-window. -/
theorem arrivalsWithinWindow_append (o : CBOptions) (pre : List Int) :
    ∀ (s : CBState) (suf : List Int),
      arrivalsWithinWindow o s (pre ++ suf) = true →
      arrivalsWithinWindow o s pre = true := by
  induction pre with
  | nil => intro s suf _; rfl
  | cons t pre ih =>
    intro s suf h
    rw [List.cons_append, arrivalsWithinWindow, Bool.and_eq_true] at h
    rw [arrivalsWithinWindow, Bool.and_eq_true]
    exact ⟨h.1, ih _ _ h.2⟩

/-- C8: when the middleware rejects a request because the breaker is Open
(its counter at or above threshold, and the request arriving before
`nextAttempt` has passed), the 503 rejection is itself recorded as a failure:
the counter increments and `nextAttempt` is reset to `now + resetTimeout`,
the breaker staying Open; consequently, along any sequence of requests each
arriving before the then-current `nextAttempt` passes, the breaker never
leaves the Open phase (so it never becomes HalfOpen). -/
theorem middleware_reject_feedback (o : CBOptions) (s : CBState) (now : Int)
    (ts : List Int) (hopen : s.phase = .opened) (hinv : o.threshold ≤ s.failures)
    (hnow : now ≤ s.nextAttempt) :
    (middlewareStep o s now false).1 = true ∧
    (middlewareStep o s now false).2.failures = s.failures + 1 ∧
    (middlewareStep o s now false).2.nextAttempt = now + o.resetTimeout ∧
    (middlewareStep o s now false).2.phase = .opened ∧
    (∀ pre suf : List Int, pre ++ suf = ts →
      arrivalsWithinWindow o s ts = true →
      (rejectedRun o s pre).phase = .opened) := by
  have hstep := middleware_reject_step o s now hopen hinv hnow
  refine ⟨by rw [hstep], by rw [hstep], by rw [hstep], by rw [hstep], ?_⟩
  intro pre suf hps hw
  rw [← hps] at hw
  exact (rejectedRun_stays_open o pre s hopen hinv
    (arrivalsWithinWindow_append o pre s suf hw)).1

/-- C8 witness: an Open breaker at threshold, one rejected request, and a
two-request within-window run. -/
theorem middleware_reject_feedback_witness :
    ((⟨2, 150, .opened⟩ : CBState).phase = .opened ∧
     (⟨2, 0, 100⟩ : CBOptions).threshold ≤ (⟨2, 150, .opened⟩ : CBState).failures ∧
     (50 : Int) ≤ (⟨2, 150, .opened⟩ : CBState).nextAttempt) ∧
    (middlewareStep ⟨2, 0, 100⟩ ⟨2, 150, .opened⟩ 50 false).1 = true ∧
    (middlewareStep ⟨2, 0, 100⟩ ⟨2, 150, .opened⟩ 50 false).2.nextAttempt = 150 ∧
    (rejectedRun ⟨2, 0, 100⟩ ⟨2, 150, .opened⟩ [60, 70]).phase = .opened :=
  ⟨⟨rfl, by decide, by decide⟩,
   (middleware_reject_feedback ⟨2, 0, 100⟩ ⟨2, 150, .opened⟩ 50 [60, 70]
     rfl (by decide) (by decide)).1,
   (middleware_reject_feedback ⟨2, 0, 100⟩ ⟨2, 150, .opened⟩ 50 [60, 70]
     rfl (by decide) (by decide)).2.2.1,
   (middleware_reject_feedback ⟨2, 0, 100⟩ ⟨2, 150, .opened⟩ 50 [60, 70]
     rfl (by decide) (by decide)).2.2.2.2 [60, 70] [] rfl (by decide)⟩

/-! ## Claim C9 — memory store: expired-but-unpurged entries -/

/-- C9: for an entry whose stored expiry has passed but that has not been
read since, `exists` still answers true (it never consults the expiry) while
`get` answers absent and purges the entry — so `get` and `exists` disagree on
expired-but-unpurged entries. -/
theorem memory_store_get_exists_disagree (now : Int) (store : MemStore String)
    (key v : String) (e : Int)
    (h : alistLookup store key = some ⟨v, some e⟩) (hexp : e < now) :
    memExists store key = true ∧
    (memGet now store key).1 = none ∧
    alistLookup (memGet now store key).2 key = none := by
  have hget : memGet now store key = (none, alistErase store key) := by
    simp [memGet, h, hexp]
  refine ⟨?_, ?_, ?_⟩
  · simp [memExists, h]
  · rw [hget]
  · rw [hget]
    exact alistLookup_erase_self store key

/-- C9 witness on a one-entry store expired at 10, read at 20. -/
theorem memory_store_get_exists_disagree_witness :
    (alistLookup [("k", (⟨"v", some 10⟩ : MemItem String))] "k" = some ⟨"v", some 10⟩ ∧
     (10 : Int) < 20) ∧
    memExists [("k", (⟨"v", some 10⟩ : MemItem String))] "k" = true ∧
    (memGet 20 [("k", (⟨"v", some 10⟩ : MemItem String))] "k").1 = none :=
  ⟨⟨rfl, by decide⟩,
   (memory_store_get_exists_disagree 20 [("k", ⟨"v", some 10⟩)] "k" "v" 10 rfl
     (by decide)).1,
   (memory_store_get_exists_disagree 20 [("k", ⟨"v", some 10⟩)] "k" "v" 10 rfl
     (by decide)).2.1⟩

/-! ## Claim C5 — lazy expiry of the upstream session -/

/-- C5: when the stored record's `expires` is at or before the current time,
the `getUpstream`-style read (shared by the `status` handler and
`ensureQuentryAuth`) deletes the record and reports expired, and a subsequent
read for the same subject reports absent. -/
theorem lazy_expiry_read (now now2 : Int) (store : MemStore Json)
    (userId : String) (sess : Json) (e : Int)
    (hget : (memGet now store (quentryKey userId)).1 = some sess)
    (hexp : getField sess "expires" = some (.num e))
    (hle : e ≤ now) :
    (getUpstream now store userId).1 = .expired ∧
    (getUpstream now2 (getUpstream now store userId).2 userId).1 = .absent := by
  rcases hmem : memGet now store (quentryKey userId) with ⟨res, store1⟩
  have hres : res = some sess := by rw [hmem] at hget; exact hget
  subst hres
  have hfirst : getUpstream now store userId = (.expired, memDel store1 (quentryKey userId)) := by
    simp [getUpstream, hmem, jsLeNow, hexp, hle]
  refine ⟨by rw [hfirst], ?_⟩
  rw [hfirst]
  have hlook : alistLookup (alistErase store1 (quentryKey userId)) (quentryKey userId) = none :=
    alistLookup_erase_self store1 (quentryKey userId)
  simp [getUpstream, memGet, memDel, hlook]

/-- C5 witness: a record with `expires = 10`, read at 20 then at 30. -/
theorem lazy_expiry_read_witness :
    ((memGet 20 [(quentryKey "u",
        (⟨Json.obj [("expires", Json.num 10)], none⟩ : MemItem Json))]
        (quentryKey "u")).1 = some (Json.obj [("expires", Json.num 10)]) ∧
     getField (Json.obj [("expires", Json.num 10)]) "expires" = some (.num 10) ∧
     (10 : Int) ≤ 20) ∧
    (getUpstream 20 [(quentryKey "u",
        (⟨Json.obj [("expires", Json.num 10)], none⟩ : MemItem Json))] "u").1 = .expired ∧
    (getUpstream 30 (getUpstream 20 [(quentryKey "u",
        (⟨Json.obj [("expires", Json.num 10)], none⟩ : MemItem Json))] "u").2 "u").1 = .absent :=
  ⟨⟨rfl, rfl, by decide⟩,
   (lazy_expiry_read 20 30 [(quentryKey "u", ⟨Json.obj [("expires", Json.num 10)], none⟩)]
     "u" (Json.obj [("expires", Json.num 10)]) 10 rfl rfl (by decide)).1,
   (lazy_expiry_read 20 30 [(quentryKey "u", ⟨Json.obj [("expires", Json.num 10)], none⟩)]
     "u" (Json.obj [("expires", Json.num 10)]) 10 rfl rfl (by decide)).2⟩

/-! ## Claim C6 — networked store error-propagation policy -/

/-- C6: a failure of the networked store implementation on `get` is swallowed
and reported as absent (`null`), a failure on `delete` is swallowed as a
no-op, and a failure on `set` is re-raised to the caller; successful raw
calls pass through unchanged. -/
theorem store_error_propagation (e : String) (v : Option String) :
    redisGet (.error e) = .ok none ∧
    redisDel (.error e) = .ok () ∧
    redisSet (.error e) = .error e ∧
    redisGet (.ok v) = .ok v ∧
    redisSet (.ok ()) = .ok () ∧
    redisDel (.ok ()) = .ok () :=
  ⟨rfl, rfl, rfl, rfl, rfl, rfl⟩

/-! ## Claim C3 — missing-token handling -/

/-- The spec scenario's failure body: `hasErrors`/`errorCode` and no token
field anywhere. -/
def badCredsBody : Json :=
  .obj [("hasErrors", .bool true), ("errorCode", .str "BAD_CREDENTIALS")]

/-- C3 counterexample: on a 200 response whose body has no token field
anywhere, `authenticateWithQuentry` throws (its rewrapped error), rather than
returning a typed failure value carrying the upstream status. -/
theorem authenticate_missing_token_throws :
    authenticateWithQuentry 0 ⟨200, badCredsBody⟩ =
      .error "Quentry authentication failed: Invalid response from Quentry auth service - no token found" := by
  rfl

/-- C3 (amended): for every 2xx upstream response whose payload (nested or
flat) has no truthy token field, `authenticateWithQuentry` throws the fixed
rewrapped error (it does not return a typed failure and does not carry the
upstream status), while the `login` route handler does not throw: it replies
with the fixed status 401 — regardless of the upstream status code — and the
human-readable reason `Invalid credentials - no token returned`, storing
nothing.  The upstream status is only propagated on the non-2xx
(axios-throw) path. -/
theorem missing_token_auth_amended (now : Int) (userId : String) (r : HttpResponse)
    (h2xx : 200 ≤ r.status ∧ r.status < 300)
    (htok : truthyField (extractPayload r.body) "token" = false) :
    authenticateWithQuentry now r =
      .error "Quentry authentication failed: Invalid response from Quentry auth service - no token found" ∧
    (login now userId r).1.status = 401 ∧
    (login now userId r).1.body =
      .obj [("error", .str "Invalid credentials - no token returned")] ∧
    (login now userId r).2 = none := by
  have hauth : authenticateWithQuentry now r =
      .error "Quentry authentication failed: Invalid response from Quentry auth service - no token found" := by
    rw [authenticateWithQuentry, if_pos h2xx]
    rcases hcase : getField (extractPayload r.body) "token" with _ | tok
    · simp [hcase]
    · have htru : jsTruthy tok = false := by
        rw [truthyField, hcase] at htok
        exact htok
      simp [hcase, htru]
  have hlogin : login now userId r =
      ({ status := 401,
         body := .obj [("error", .str "Invalid credentials - no token returned")] }, none) := by
    rw [login, if_pos h2xx]
    simp [htok]
  exact ⟨hauth, by rw [hlogin], by rw [hlogin], by rw [hlogin]⟩

/-- C3 (amended) witness on the spec's `BAD_CREDENTIALS` body at HTTP 200. -/
theorem missing_token_auth_amended_witness :
    ((200 ≤ 200 ∧ 200 < 300) ∧
     truthyField (extractPayload badCredsBody) "token" = false) ∧
    (login 0 "u" ⟨200, badCredsBody⟩).1.status = 401 ∧
    (login 0 "u" ⟨200, badCredsBody⟩).2 = none :=
  ⟨⟨⟨by decide, by decide⟩, rfl⟩,
   (missing_token_auth_amended 0 "u" ⟨200, badCredsBody⟩
     ⟨by decide, by decide⟩ rfl).2.1,
   (missing_token_auth_amended 0 "u" ⟨200, badCredsBody⟩
     ⟨by decide, by decide⟩ rfl).2.2.2⟩

/-! ## Claim C4 — nested-vs-flat payload extraction -/

/-- The spec scenario's payload and enveloped body. -/
def scenarioPayload : Json :=
  .obj [("token", .str "EU_abc123"), ("userName", .str "alice"),
        ("fullName", .str "Alice Example"), ("userEmail", .str "alice@example.com")]

/-- A body nesting the scenario payload under `data`. -/
def scenarioBody : Json := .obj [("data", scenarioPayload)]

/-- C4 counterexample: a body carrying the `data` field with the value
`null` — the field is present, yet the extracted payload is the whole body,
not `body.data`. -/
theorem extractPayload_falsy_data_counterexample :
    getField (Json.obj [("data", Json.null), ("token", Json.str "t")]) "data" =
      some Json.null ∧
    extractPayload (Json.obj [("data", Json.null), ("token", Json.str "t")]) =
      Json.obj [("data", Json.null), ("token", Json.str "t")] ∧
    Json.obj [("data", Json.null), ("token", Json.str "t")] ≠ Json.null := by
  refine ⟨rfl, rfl, ?_⟩
  intro h
  exact Json.noConfusion h

/-- C4 (amended): the extracted payload is `body.data` when that field is
present with a truthy value, and the whole body otherwise — including when
the field is present but falsy (`null`, `false`, `0`, `""`); in the spec's
scenario, authentication yields a session whose token is `"EU_abc123"`. -/
theorem extractPayload_amended (body d : Json) :
    (getField body "data" = some d → jsTruthy d = true → extractPayload body = d) ∧
    (getField body "data" = some d → jsTruthy d = false → extractPayload body = body) ∧
    (getField body "data" = none → extractPayload body = body) ∧
    (authenticateWithQuentry 0 { status := 200, body := scenarioBody }).map
      (fun s => s.token) = .ok (.str "EU_abc123") := by
  refine ⟨?_, ?_, ?_, rfl⟩
  · intro h ht
    simp [extractPayload, h, ht]
  · intro h ht
    simp [extractPayload, h, ht]
  · intro h
    simp [extractPayload, h]

/-- C4 (amended) witness on the nested scenario body. -/
theorem extractPayload_amended_witness :
    getField scenarioBody "data" = some scenarioPayload ∧
    jsTruthy scenarioPayload = true ∧
    extractPayload scenarioBody = scenarioPayload :=
  ⟨rfl, rfl, (extractPayload_amended scenarioBody scenarioPayload).1 rfl rfl⟩

/-! ## Claim C10 — the persisted login record -/

/-- C10: on a successful login, the persisted record is the entire extracted
payload with its `expires` field set (overwriting any upstream-provided
`expires`) to the persistence instant plus exactly 3600000 ms, stored under
the subject's key with a fixed 3600-second TTL. -/
theorem login_persisted_record (now : Int) (userId : String) (r : HttpResponse)
    (fields : List (String × Json))
    (h2xx : 200 ≤ r.status ∧ r.status < 300)
    (hpayload : extractPayload r.body = .obj fields)
    (htok : truthyField (.obj fields) "token" = true) :
    ∃ w : StoreWrite, (login now userId r).2 = some w ∧
      w.key = "quentry_session:" ++ userId ∧
      w.ttl = 3600 ∧
      getField w.value "expires" = some (.num (now + 3600 * 1000)) ∧
      (∀ k : String, k ≠ "expires" → getField w.value k = getField (.obj fields) k) := by
  have htok' : truthyField (extractPayload r.body) "token" = true := by
    rw [hpayload]
    exact htok
  refine ⟨⟨quentryKey userId,
           jsSpreadSet (Json.obj fields) "expires" (.num (now + 3600 * 1000)), 3600⟩,
    ?_, rfl, rfl, ?_, ?_⟩
  · rw [login, if_pos h2xx]
    simp [htok', hpayload, htok]
  · simp [jsSpreadSet, getField, alistLookup_set_self]
  · intro k hk
    simp [jsSpreadSet, getField, alistLookup_set_ne _ _ _ _ hk]

/-- C10 witness: a flat payload that itself carries an `expires` field, which
the persisted record overwrites with `0 + 3600000`. -/
theorem login_persisted_record_witness :
    ((200 ≤ 200 ∧ 200 < 300) ∧
     extractPayload (Json.obj [("token", Json.str "t"), ("expires", Json.num 5)]) =
       Json.obj [("token", Json.str "t"), ("expires", Json.num 5)] ∧
     truthyField (Json.obj [("token", Json.str "t"), ("expires", Json.num 5)]) "token" = true) ∧
    (∃ w : StoreWrite,
      (login 0 "u" ⟨200, Json.obj [("token", Json.str "t"), ("expires", Json.num 5)]⟩).2 =
        some w ∧
      w.key = "quentry_session:" ++ "u" ∧
      w.ttl = 3600 ∧
      getField w.value "expires" = some (.num (0 + 3600 * 1000)) ∧
      (∀ k : String, k ≠ "expires" → getField w.value k =
        getField (Json.obj [("token", Json.str "t"), ("expires", Json.num 5)]) k)) :=
  ⟨⟨⟨by decide, by decide⟩, rfl, rfl⟩,
   login_persisted_record 0 "u" ⟨200, Json.obj [("token", Json.str "t"), ("expires", Json.num 5)]⟩
     [("token", Json.str "t"), ("expires", Json.num 5)]
     ⟨by decide, by decide⟩ rfl rfl⟩
